import Mathlib

/-!
Shallow embedding of `src/functions/covid19_pdf.js` (the `pdfGenerateFile`
function of the covid19-slack repository) and verification of spec claims
about it.

External collaborators (httpGet, translateCountryName, currentTimeStamp,
commentGet, and the pdfmake/fs render-and-write step) are modelled as data
supplied in an `Env` record: each is called at most once per invocation, so
its single relevant result is a field.  Observable side effects (fetches,
file write, log lines) are recorded in an event trace.  JavaScript-specific
behaviour that the claims depend on is modelled explicitly: loose equality
with the empty string, `Number(...)` coercion of null/undefined, grouped
`toLocaleString` formatting, and the strict-mode `ReferenceError` raised by
the assignment to the undeclared identifier `output` in the catch block.
-/

/-- JavaScript number as it occurs here: a non-negative integer or NaN
(`Number(undefined)`). -/
inductive JSNum where
  | nan : JSNum
  | val : Nat → JSNum
deriving DecidableEq, Repr

/-- JavaScript value for the `image_file` argument and loose-equality tests. -/
inductive JSValue where
  | str : String → JSValue
  | num : JSNum → JSValue
  | bool : Bool → JSValue
  | null : JSValue
  | undefined : JSValue
deriving DecidableEq, Repr

/-- JavaScript loose equality `v == ""` (line 57 of the source):
`"" == ""` is true; `0 == ""` and `false == ""` are true because both sides
coerce to the number 0; `NaN == ""` is false; `null == ""` and
`undefined == ""` are false (null/undefined are loosely equal only to each
other). -/
def jsLooseEqEmptyString : JSValue → Bool
  | .str s => s == ""
  | .num .nan => false
  | .num (.val n) => n == 0
  | .bool b => b == false
  | .null => false
  | .undefined => false

/-- A field of the statistics record returned by the remote source: a
non-negative integer, or null, or absent (undefined). -/
inductive FieldVal where
  | int : Nat → FieldVal
  | null : FieldVal
  | undefined : FieldVal
deriving DecidableEq, Repr

/-- JavaScript `Number(x)` on a statistics field: numbers pass through,
`Number(null) = 0`, `Number(undefined) = NaN`. -/
def toNumber : FieldVal → JSNum
  | .int n => .val n
  | .null => .val 0
  | .undefined => .nan

/-- Insert a comma after every third character of a digit list given
least-significant first. -/
def commasRev : List Char → List Char
  | a :: b :: c :: d :: rest => a :: b :: c :: ',' :: commasRev (d :: rest)
  | l => l

/-- Decimal digits of a natural number with grouping commas, e.g.
`1234567 ↦ "1,234,567"`. -/
def natGrouped (n : Nat) : String :=
  String.mk (commasRev (Nat.toDigits 10 n).reverse).reverse

/-- JavaScript `Number(x).toLocaleString()` under the default en-US locale:
grouped thousands for numbers, the string `"NaN"` for NaN. -/
def jsLocaleString : JSNum → String
  | .nan => "NaN"
  | .val n => natGrouped n

/-- The statistics record shape fetched from `<base>/countries/<id>` or
`<base>/all`. -/
structure StatisticsRecord where
  population : FieldVal
  active : FieldVal
  critical : FieldVal
  recovered : FieldVal
  cases : FieldVal
  deaths : FieldVal
  tests : FieldVal
deriving DecidableEq, Repr

/-- Date-time carried by an annotation entry. -/
structure DateTime where
  year : Nat
  month : Nat
  day : Nat
  hour : Nat
  minute : Nat
deriving DecidableEq, Repr

/-- Zero-pad to two digits. -/
def pad2 (n : Nat) : String :=
  if n < 10 then "0" ++ toString n else toString n

/-- Zero-pad to four digits. -/
def pad4 (n : Nat) : String :=
  if n < 10 then "000" ++ toString n
  else if n < 100 then "00" ++ toString n
  else if n < 1000 then "0" ++ toString n
  else toString n

/-- `datetime.toFormat("YYYY-MM-DD HH24:MI")` of the date-utils library
(line 178 of the source): zero-padded year-month-day, 24-hour clock, minutes. -/
def DateTime.toFormat (d : DateTime) : String :=
  pad4 d.year ++ "-" ++ pad2 d.month ++ "-" ++ pad2 d.day ++ " " ++
    pad2 d.hour ++ ":" ++ pad2 d.minute

/-- An annotation entry returned by `commentGet`. -/
structure AnnotationEntry where
  datetime : DateTime
  comment : String
deriving DecidableEq, Repr

/-- A table cell: plain text or text with a style label. -/
inductive Cell where
  | plain : String → Cell
  | styled : String → String → Cell
deriving DecidableEq, Repr

/-- One entry of the pdfmake `content` array: a bare string (the `''`
placeholder used for an omitted table), a text block with style and optional
`id`, a table block, or an image block. -/
inductive ContentBlock where
  | rawStr : String → ContentBlock
  | text : String → String → Option String → ContentBlock
  | table : String → Nat → List (List Cell) → ContentBlock
  | image : JSValue → Nat → Nat → ContentBlock
deriving DecidableEq, Repr

/-- The `id` of a content node; only text blocks ever carry one here. -/
def blockId : ContentBlock → Option String
  | .text _ _ i => i
  | _ => none

/-- Whether a content entry is a table block. -/
def isTableBlock : ContentBlock → Bool
  | .table _ _ _ => true
  | _ => false

/-- The body (row list) of a table block; `[]` for non-tables. -/
def tableBody : ContentBlock → List (List Cell)
  | .table _ _ b => b
  | _ => []

/-- The `pageBreakBefore` callback of the docDefinition (lines 125-131):
break exactly before the node whose `id` is `'comment'`. -/
def pageBreakBefore (b : ContentBlock) : Bool :=
  blockId b == some "comment"

/-- A JavaScript exception: class name and message. -/
structure JsError where
  name : String
  message : String
deriving DecidableEq, Repr

/-- The strict-mode error raised by the assignment `output = null` on line
200: `output` is undeclared and the module begins with `'use strict'`. -/
def referenceError : JsError :=
  { name := "ReferenceError", message := "output is not defined" }

/-- Observable side effects of one invocation. -/
inductive Event where
  | fetchStats : String → Event
  | fetchTranslate : String → Event
  | fetchComments : String → Event
  | fileWrite : String → Event
  | logInfo : String → Event
  | logError : String → Event
deriving DecidableEq, Repr

/-- The environment of one invocation: configuration constants and the
results the external collaborators would return. -/
structure Env where
  baseUrl : String
  localFolder : String
  statsResult : Option StatisticsRecord
  translated : Option String
  timestamp : String
  comments : Option (List AnnotationEntry)
  writeOutcome : Except JsError Unit

/-- URL resolution (lines 61-62): `<base>all` for the sentinel `'all'`,
`<base>countries/<id>` otherwise (the base URL carries its trailing slash). -/
def resolveUrl (baseUrl country : String) : String :=
  if country == "all" then baseUrl ++ "all"
  else baseUrl ++ "countries/" ++ country

/-- `translateCountryName` result with fallback to the raw identifier
(lines 67-68). -/
def translatedName (env : Env) (country : String) : String :=
  match env.translated with
  | some t => t
  | none => country

/-- The identity table (lines 70-79): header row and one data row with the
localized country name and the formatted population. -/
def mkInfoTable (translated population : String) : ContentBlock :=
  .table "tableBody" 20
    [ [Cell.styled "国名" "tableHeader", Cell.styled "人口" "tableHeader"],
      [Cell.plain translated, Cell.plain population] ]

/-- The status table (lines 87-100): six labeled rows in fixed order. -/
def mkStatusTable (active critical recovered cases deaths tests : String) :
    ContentBlock :=
  .table "tableBody" 20
    [ [Cell.styled "感染者数" "tableHeader", Cell.plain active],
      [Cell.styled "重病者数" "tableHeader", Cell.plain critical],
      [Cell.styled "退院・療養終了" "tableHeader", Cell.plain recovered],
      [Cell.styled "感染者累計" "tableHeader", Cell.plain cases],
      [Cell.styled "死亡者累計" "tableHeader", Cell.plain deaths],
      [Cell.styled "検査数" "tableHeader", Cell.plain tests] ]

/-- Lines 64-101: on a non-null fetch result build both tables (after the
translation lookup); on a null result leave both as the empty string.  The
third component records the translation fetch when it happens. -/
def infoAndStatusTables (env : Env) (country : String) :
    ContentBlock × ContentBlock × List Event :=
  match env.statsResult with
  | none => (.rawStr "", .rawStr "", [])
  | some result =>
      (mkInfoTable (translatedName env country)
         (jsLocaleString (toNumber result.population)),
       mkStatusTable
         (jsLocaleString (toNumber result.active))
         (jsLocaleString (toNumber result.critical))
         (jsLocaleString (toNumber result.recovered))
         (jsLocaleString (toNumber result.cases))
         (jsLocaleString (toNumber result.deaths))
         (jsLocaleString (toNumber result.tests)),
       [Event.fetchTranslate country])

/-- The fixed-order content (lines 108-123): title, timestamp line, identity
table slot, status subheading, status table slot, chart subheading, chart
image. -/
def buildContent (info_table status_table : ContentBlock)
    (datetime : String) (image_file : JSValue) : List ContentBlock :=
  [ .text "COVID-19 レポート" "title" none,
    .text ("作成時刻: " ++ datetime) "datetime" none,
    info_table,
    .text "感染状況：" "sub_title" none,
    status_table,
    .text "感染履歴グラフ：" "sub_title" none,
    .image image_file 450 300 ]

/-- The content before any annotation section. -/
def baseBlocks (env : Env) (datetime country : String)
    (image_file : JSValue) : List ContentBlock :=
  buildContent (infoAndStatusTables env country).1
    (infoAndStatusTables env country).2.1 datetime image_file

/-- The annotation subheading pushed on line 184, carrying `id: 'comment'`. -/
def commentSubheading : ContentBlock :=
  .text "コメント：" "sub_title" (some "comment")

/-- Header row of the annotation table (line 172). -/
def commentHeaderRow : List Cell :=
  [Cell.styled "日時" "tableHeader", Cell.styled "コメント" "tableHeader"]

/-- The annotation table (lines 167-181): header row then one row per entry,
formatted date-time and verbatim comment text. -/
def mkCommentTable (comments : List AnnotationEntry) : ContentBlock :=
  .table "tableBody" 20
    (commentHeaderRow ::
      comments.map (fun c => [Cell.plain c.datetime.toFormat, Cell.plain c.comment]))

/-- Lines 165-187: the annotation section appended when `commentGet` returned
a non-null, non-empty list; nothing otherwise. -/
def annotationBlocks (comments : Option (List AnnotationEntry)) :
    List ContentBlock :=
  match comments with
  | some cs => if cs.length > 0 then [commentSubheading, mkCommentTable cs] else []
  | none => []

/-- The full `docDefinition.content` handed to the renderer. -/
def docContent (env : Env) (datetime country : String)
    (image_file : JSValue) : List ContentBlock :=
  baseBlocks env datetime country image_file ++ annotationBlocks env.comments

/-- Output file path (line 104). -/
def outputFilePath (env : Env) (country : String) : String :=
  env.localFolder ++ "/Report-" ++ country ++ "-" ++ env.timestamp ++ ".pdf"

instance {ε α : Type} [DecidableEq ε] [DecidableEq α] :
    DecidableEq (Except ε α) := fun x y =>
  match x, y with
  | .ok a, .ok b =>
      if h : a = b then isTrue (by rw [h]) else isFalse (by simp [h])
  | .error a, .error b =>
      if h : a = b then isTrue (by rw [h]) else isFalse (by simp [h])
  | .ok _, .error _ => isFalse (by simp)
  | .error _, .ok _ => isFalse (by simp)

/-- The observable result of one invocation: the value returned (or the
exception thrown), the document description handed to the renderer (none if
assembly was never reached), and the event trace. -/
structure RunResult where
  outcome : Except JsError (Option String)
  doc : Option (List ContentBlock)
  trace : List Event
deriving DecidableEq, Repr

/-- `pdfGenerateFile(datetime, country, image_file)` (lines 55-204).  The
guard on line 57 is JavaScript loose equality with `""`.  On the write path,
success logs the info line and returns the path; an exception is caught and
logged (line 199) but the assignment `output = null` on line 200 then raises
a strict-mode `ReferenceError`, which propagates out of the function. -/
def pdfGenerateFile (env : Env) (datetime country : String)
    (image_file : JSValue) : RunResult :=
  if jsLooseEqEmptyString image_file then
    { outcome := .ok none, doc := none, trace := [] }
  else
    let url := resolveUrl env.baseUrl country
    let output_file := outputFilePath env country
    let content := docContent env datetime country image_file
    let preTrace := Event.fetchStats url ::
      ((infoAndStatusTables env country).2.2 ++ [Event.fetchComments country])
    match env.writeOutcome with
    | .ok _ =>
        { outcome := .ok (some output_file),
          doc := some content,
          trace := preTrace ++
            [Event.fileWrite output_file,
             Event.logInfo ("[INFO]  " ++ output_file ++ " has been saved.")] }
    | .error e =>
        { outcome := .error referenceError,
          doc := some content,
          trace := preTrace ++ [Event.logError (e.name ++ ": " ++ e.message)] }

/-- The status table produced for one invocation. -/
def statusTableOf (env : Env) (country : String) : ContentBlock :=
  (infoAndStatusTables env country).2.1

/-- The identity table produced for one invocation. -/
def infoTableOf (env : Env) (country : String) : ContentBlock :=
  (infoAndStatusTables env country).1

/-- Sample statistics record (the end-to-end scenario of the spec). -/
def sampleRecord : StatisticsRecord :=
  { population := .int 7800000000, active := .int 1000, critical := .int 50,
    recovered := .int 900, cases := .int 2000, deaths := .int 30,
    tests := .int 500000 }

/-- Sample annotation entry. -/
def sampleEntry : AnnotationEntry :=
  { datetime := { year := 2022, month := 3, day := 7, hour := 9, minute := 5 },
    comment := "first wave" }

/-- Sample environment: successful fetch, one annotation, successful write. -/
def envOkStats : Env :=
  { baseUrl := "https://disease.sh/v3/covid-19/", localFolder := "tmp",
    statsResult := some sampleRecord, translated := some "世界",
    timestamp := "20220307-0905", comments := some [sampleEntry],
    writeOutcome := .ok () }

/-- Sample environment: failed statistics fetch, no annotations. -/
def envNoStats : Env :=
  { envOkStats with statsResult := none, comments := some [] }

/-- Sample environment: the render-or-write step throws. -/
def envWriteFail : Env :=
  { envOkStats with writeOutcome := .error { name := "Error", message := "ENOENT" } }

/-- Sample record with the spec's formatting example value. -/
def recordMillions : StatisticsRecord :=
  { sampleRecord with cases := .int 1234567 }

/-- Sample environment whose fetch returns `recordMillions`. -/
def envMillions : Env :=
  { envOkStats with statsResult := some recordMillions }

/-- Sample record with a null field and a missing field. -/
def recordAbsent : StatisticsRecord :=
  { sampleRecord with active := .null, tests := .undefined }

/-- Sample environment whose fetch returns `recordAbsent`. -/
def envAbsent : Env :=
  { envOkStats with statsResult := some recordAbsent }

example : natGrouped 1234567 = "1,234,567" := by decide
example : natGrouped 0 = "0" := by decide
example : natGrouped 1000 = "1,000" := by decide
example : natGrouped 999 = "999" := by decide
example : jsLocaleString (toNumber .undefined) = "NaN" := by decide
example : jsLocaleString (toNumber .null) = "0" := by decide
example : DateTime.toFormat ⟨2022, 3, 7, 9, 5⟩ = "2022-03-07 09:05" := by decide

/-- Every block of the base content carries no `id`. -/
theorem blockId_baseBlocks (env : Env) (datetime country : String)
    (image_file : JSValue) :
    ∀ b ∈ baseBlocks env datetime country image_file, blockId b = none := by
  rcases hs : env.statsResult with _ | r <;>
    simp [baseBlocks, infoAndStatusTables, hs, buildContent, mkInfoTable,
      mkStatusTable, blockId]

/-- No block of the base content triggers the page-break predicate. -/
theorem countP_pageBreak_baseBlocks (env : Env) (datetime country : String)
    (image_file : JSValue) :
    (baseBlocks env datetime country image_file).countP pageBreakBefore = 0 := by
  rcases hs : env.statsResult with _ | r <;>
    simp [baseBlocks, infoAndStatusTables, hs, buildContent, mkInfoTable,
      mkStatusTable, pageBreakBefore, blockId, List.countP_cons]

/-- Every block of the full document is the annotation subheading or has no
`id`. -/
theorem docContent_id_cases (env : Env) (datetime country : String)
    (image_file : JSValue) :
    ∀ b ∈ docContent env datetime country image_file,
      b = commentSubheading ∨ blockId b = none := by
  intro b hb
  rw [docContent, List.mem_append] at hb
  rcases hb with hb | hb
  · exact Or.inr (blockId_baseBlocks env datetime country image_file b hb)
  · rcases hc : env.comments with _ | cs
    · rw [hc] at hb; simp [annotationBlocks] at hb
    · rw [hc] at hb
      by_cases hlen : cs.length > 0
      · simp [annotationBlocks, hlen] at hb
        rcases hb with rfl | rfl
        · exact Or.inl rfl
        · exact Or.inr rfl
      · simp [annotationBlocks, hlen] at hb

/-- C2: a call with an empty chart-image handle returns null immediately,
assembles no document, and performs no fetch, no write and no logging. -/
theorem pdf_empty_image_short_circuits (env : Env) (datetime country : String) :
    pdfGenerateFile env datetime country (JSValue.str "") =
      { outcome := .ok none, doc := none, trace := [] } := by
  simp [pdfGenerateFile, jsLooseEqEmptyString]

/-- C9: the statistics fetch is the first observable action and its URL is
the aggregate endpoint for the sentinel `"all"` and the per-target endpoint
otherwise. -/
theorem stats_url_resolution (env : Env) (datetime country : String)
    (image_file : JSValue)
    (himg : jsLooseEqEmptyString image_file = false) :
    (pdfGenerateFile env datetime country image_file).trace.head? =
      some (Event.fetchStats (resolveUrl env.baseUrl country)) ∧
    (country = "all" → resolveUrl env.baseUrl country = env.baseUrl ++ "all") ∧
    (country ≠ "all" →
      resolveUrl env.baseUrl country = env.baseUrl ++ "countries/" ++ country) := by
  refine ⟨?_, ?_, ?_⟩
  · rcases hw : env.writeOutcome with e | u <;>
      simp [pdfGenerateFile, himg, hw]
  · intro h; simp [resolveUrl, h]
  · intro h; simp [resolveUrl, h]

/-- Witness for C9 at a concrete environment and both kinds of target. -/
theorem stats_url_resolution_witness :
    (pdfGenerateFile envOkStats "2022-03-07 09:05" "all" (.str "img")).trace.head? =
      some (Event.fetchStats (resolveUrl envOkStats.baseUrl "all")) ∧
    resolveUrl envOkStats.baseUrl "all" = envOkStats.baseUrl ++ "all" ∧
    resolveUrl envOkStats.baseUrl "japan" =
      envOkStats.baseUrl ++ "countries/" ++ "japan" :=
  ⟨(stats_url_resolution envOkStats "2022-03-07 09:05" "all" (.str "img")
      (by decide)).1,
   (stats_url_resolution envOkStats "2022-03-07 09:05" "all" (.str "img")
      (by decide)).2.1 rfl,
   (stats_url_resolution envOkStats "2022-03-07 09:05" "japan" (.str "img")
      (by decide)).2.2 (by decide)⟩

/-- C10: the guard is loose equality with `""`: null and undefined handles
do not short-circuit (the pipeline runs to the file write), while `""`, `0`
and `false` all return null immediately with no side effects. -/
theorem image_guard_loose_equality (env : Env) (datetime country : String)
    (hw : env.writeOutcome = .ok ()) :
    (pdfGenerateFile env datetime country .null).outcome =
      .ok (some (outputFilePath env country)) ∧
    Event.fileWrite (outputFilePath env country) ∈
      (pdfGenerateFile env datetime country .null).trace ∧
    (pdfGenerateFile env datetime country .null).trace.head? =
      some (Event.fetchStats (resolveUrl env.baseUrl country)) ∧
    (pdfGenerateFile env datetime country .undefined).outcome =
      .ok (some (outputFilePath env country)) ∧
    Event.fileWrite (outputFilePath env country) ∈
      (pdfGenerateFile env datetime country .undefined).trace ∧
    pdfGenerateFile env datetime country (.str "") =
      { outcome := .ok none, doc := none, trace := [] } ∧
    pdfGenerateFile env datetime country (.num (.val 0)) =
      { outcome := .ok none, doc := none, trace := [] } ∧
    pdfGenerateFile env datetime country (.bool false) =
      { outcome := .ok none, doc := none, trace := [] } := by
  simp [pdfGenerateFile, jsLooseEqEmptyString, hw]

/-- Witness for C10 at a concrete environment. -/
theorem image_guard_loose_equality_witness :
    (pdfGenerateFile envOkStats "2022-03-07 09:05" "all" .null).outcome =
      .ok (some (outputFilePath envOkStats "all")) ∧
    pdfGenerateFile envOkStats "2022-03-07 09:05" "all" (.num (.val 0)) =
      { outcome := .ok none, doc := none, trace := [] } :=
  ⟨(image_guard_loose_equality envOkStats "2022-03-07 09:05" "all" rfl).1,
   (image_guard_loose_equality envOkStats "2022-03-07 09:05" "all" rfl).2.2.2.2.2.2.1⟩

/-- C1 (code bug): when the render-or-write step throws, the catch block
logs the exception class and message, but the assignment `output = null`
(line 200) references an undeclared identifier under strict mode, so the
call propagates a ReferenceError instead of returning null. -/
theorem pdf_write_failure_throws (env : Env) (datetime country : String)
    (image_file : JSValue) (e : JsError)
    (himg : jsLooseEqEmptyString image_file = false)
    (hw : env.writeOutcome = .error e) :
    (pdfGenerateFile env datetime country image_file).outcome =
      .error referenceError ∧
    Event.logError (e.name ++ ": " ++ e.message) ∈
      (pdfGenerateFile env datetime country image_file).trace ∧
    (pdfGenerateFile env datetime country image_file).outcome ≠ .ok none := by
  simp [pdfGenerateFile, himg, hw]

/-- Witness for C1 at a concrete failing environment. -/
theorem pdf_write_failure_throws_witness :
    (pdfGenerateFile envWriteFail "2022-03-07 09:05" "all" (.str "img")).outcome =
      .error referenceError ∧
    (pdfGenerateFile envWriteFail "2022-03-07 09:05" "all" (.str "img")).outcome ≠
      .ok none :=
  ⟨(pdf_write_failure_throws envWriteFail "2022-03-07 09:05" "all" (.str "img")
      { name := "Error", message := "ENOENT" } (by decide) rfl).1,
   (pdf_write_failure_throws envWriteFail "2022-03-07 09:05" "all" (.str "img")
      { name := "Error", message := "ENOENT" } (by decide) rfl).2.2⟩

/-- C3: when the statistics fetch returns no data, the document replaces the
identity and status tables by empty placeholders (no table block in the base
content) but keeps the title, timestamp line, both subheadings and the chart
image, and the call still succeeds with a file path. -/
theorem pdf_stats_failure_degrades (env : Env) (datetime country : String)
    (image_file : JSValue)
    (himg : jsLooseEqEmptyString image_file = false)
    (hstats : env.statsResult = none)
    (hw : env.writeOutcome = .ok ()) :
    (pdfGenerateFile env datetime country image_file).outcome =
      .ok (some (outputFilePath env country)) ∧
    (pdfGenerateFile env datetime country image_file).doc =
      some ([ ContentBlock.text "COVID-19 レポート" "title" none,
              ContentBlock.text ("作成時刻: " ++ datetime) "datetime" none,
              ContentBlock.rawStr "",
              ContentBlock.text "感染状況：" "sub_title" none,
              ContentBlock.rawStr "",
              ContentBlock.text "感染履歴グラフ：" "sub_title" none,
              ContentBlock.image image_file 450 300 ] ++
            annotationBlocks env.comments) ∧
    (∀ b ∈ baseBlocks env datetime country image_file,
      isTableBlock b = false) := by
  refine ⟨?_, ?_, ?_⟩
  · simp [pdfGenerateFile, himg, hw]
  · simp [pdfGenerateFile, himg, hw, docContent, baseBlocks,
      infoAndStatusTables, hstats, buildContent]
  · simp [baseBlocks, infoAndStatusTables, hstats, buildContent, isTableBlock]

/-- Witness for C3 at a concrete environment with a failed fetch. -/
theorem pdf_stats_failure_degrades_witness :
    (pdfGenerateFile envNoStats "2022-03-07 09:05" "all" (.str "img")).outcome =
      .ok (some (outputFilePath envNoStats "all")) ∧
    (∀ b ∈ baseBlocks envNoStats "2022-03-07 09:05" "all" (.str "img"),
      isTableBlock b = false) :=
  ⟨(pdf_stats_failure_degrades envNoStats "2022-03-07 09:05" "all" (.str "img")
      (by decide) rfl rfl).1,
   (pdf_stats_failure_degrades envNoStats "2022-03-07 09:05" "all" (.str "img")
      (by decide) rfl rfl).2.2⟩

/-- C6 counterexample: at a concrete successful-fetch input the base content
has 7 blocks of which 5 (not 6) are non-table base blocks, so the document
does not consist of 6 base blocks plus the two tables. -/
theorem base_block_count_counterexample :
    ((baseBlocks envOkStats "2022-03-07 09:05" "all" (.str "img")).countP
        (fun b => !(isTableBlock b))) = 5 ∧
    ¬ (((baseBlocks envOkStats "2022-03-07 09:05" "all" (.str "img")).countP
        (fun b => !(isTableBlock b))) = 6) ∧
    (baseBlocks envOkStats "2022-03-07 09:05" "all" (.str "img")).length = 7 := by
  decide

/-- C6 amended: on a successful statistics fetch the content before any
annotation section is exactly 5 fixed base blocks plus the identity and
status tables, 7 blocks in total, in the order: title heading, timestamp
line, identity table, status subheading, status table, chart subheading,
chart image block. -/
theorem pdf_base_blocks_order (env : Env) (datetime country : String)
    (image_file : JSValue) (r : StatisticsRecord)
    (hstats : env.statsResult = some r) :
    baseBlocks env datetime country image_file =
      [ ContentBlock.text "COVID-19 レポート" "title" none,
        ContentBlock.text ("作成時刻: " ++ datetime) "datetime" none,
        mkInfoTable (translatedName env country)
          (jsLocaleString (toNumber r.population)),
        ContentBlock.text "感染状況：" "sub_title" none,
        mkStatusTable
          (jsLocaleString (toNumber r.active))
          (jsLocaleString (toNumber r.critical))
          (jsLocaleString (toNumber r.recovered))
          (jsLocaleString (toNumber r.cases))
          (jsLocaleString (toNumber r.deaths))
          (jsLocaleString (toNumber r.tests)),
        ContentBlock.text "感染履歴グラフ：" "sub_title" none,
        ContentBlock.image image_file 450 300 ] ∧
    (baseBlocks env datetime country image_file).length = 7 ∧
    (baseBlocks env datetime country image_file).countP
      (fun b => !(isTableBlock b)) = 5 := by
  refine ⟨?_, ?_, ?_⟩ <;>
    simp [baseBlocks, infoAndStatusTables, hstats, buildContent, mkInfoTable,
      mkStatusTable, isTableBlock, List.countP_cons]

/-- Witness for the amended C6 at a concrete environment. -/
theorem pdf_base_blocks_order_witness :
    (baseBlocks envOkStats "2022-03-07 09:05" "all" (.str "img")).length = 7 ∧
    (baseBlocks envOkStats "2022-03-07 09:05" "all" (.str "img")).countP
      (fun b => !(isTableBlock b)) = 5 :=
  ⟨(pdf_base_blocks_order envOkStats "2022-03-07 09:05" "all" (.str "img")
      sampleRecord rfl).2.1,
   (pdf_base_blocks_order envOkStats "2022-03-07 09:05" "all" (.str "img")
      sampleRecord rfl).2.2⟩

/-- C7: on a successful statistics fetch the status table has exactly six
labeled rows in the fixed order active, critical, recovered, cases, deaths,
tests, each value formatted with grouping separators; in particular
1234567 renders as "1,234,567". -/
theorem status_table_six_rows (env : Env) (country : String)
    (r : StatisticsRecord) (hstats : env.statsResult = some r) :
    statusTableOf env country = ContentBlock.table "tableBody" 20
      [ [Cell.styled "感染者数" "tableHeader",
         Cell.plain (jsLocaleString (toNumber r.active))],
        [Cell.styled "重病者数" "tableHeader",
         Cell.plain (jsLocaleString (toNumber r.critical))],
        [Cell.styled "退院・療養終了" "tableHeader",
         Cell.plain (jsLocaleString (toNumber r.recovered))],
        [Cell.styled "感染者累計" "tableHeader",
         Cell.plain (jsLocaleString (toNumber r.cases))],
        [Cell.styled "死亡者累計" "tableHeader",
         Cell.plain (jsLocaleString (toNumber r.deaths))],
        [Cell.styled "検査数" "tableHeader",
         Cell.plain (jsLocaleString (toNumber r.tests))] ] ∧
    (tableBody (statusTableOf env country)).length = 6 ∧
    jsLocaleString (JSNum.val 1234567) = "1,234,567" := by
  refine ⟨?_, ?_, by decide⟩ <;>
    simp [statusTableOf, infoAndStatusTables, hstats, mkStatusTable, tableBody]

/-- Witness for C7 at a concrete record containing the value 1234567. -/
theorem status_table_six_rows_witness :
    statusTableOf envMillions "all" =
      ContentBlock.table "tableBody" 20
        [ [Cell.styled "感染者数" "tableHeader", Cell.plain "1,000"],
          [Cell.styled "重病者数" "tableHeader", Cell.plain "50"],
          [Cell.styled "退院・療養終了" "tableHeader", Cell.plain "900"],
          [Cell.styled "感染者累計" "tableHeader", Cell.plain "1,234,567"],
          [Cell.styled "死亡者累計" "tableHeader", Cell.plain "30"],
          [Cell.styled "検査数" "tableHeader", Cell.plain "500,000"] ] := by
  rw [(status_table_six_rows envMillions "all" recordMillions rfl).1]
  decide

/-- C8: the identity and status tables are always fully built (two rows and
six rows) with every numeric cell equal to the grouped formatting of the
`Number(...)` coercion of its source field; a null field yields the cell
"0" and a missing field yields the cell "NaN". -/
theorem tables_fully_built_formatting (env : Env) (country : String)
    (r : StatisticsRecord) (hstats : env.statsResult = some r) :
    (tableBody (infoTableOf env country)).length = 2 ∧
    (tableBody (statusTableOf env country)).length = 6 ∧
    (tableBody (infoTableOf env country)).getD 1 [] =
      [Cell.plain (translatedName env country),
       Cell.plain (jsLocaleString (toNumber r.population))] ∧
    (tableBody (statusTableOf env country)).getD 0 [] =
      [Cell.styled "感染者数" "tableHeader",
       Cell.plain (jsLocaleString (toNumber r.active))] ∧
    (r.population = FieldVal.null →
      jsLocaleString (toNumber r.population) = "0") ∧
    (r.population = FieldVal.undefined →
      jsLocaleString (toNumber r.population) = "NaN") ∧
    (∀ f : FieldVal, f = FieldVal.null → jsLocaleString (toNumber f) = "0") ∧
    (∀ f : FieldVal, f = FieldVal.undefined →
      jsLocaleString (toNumber f) = "NaN") ∧
    (∀ n : Nat, jsLocaleString (toNumber (FieldVal.int n)) = natGrouped n) := by
  refine ⟨?_, ?_, ?_, ?_, ?_, ?_, ?_, ?_, ?_⟩
  · simp [infoTableOf, infoAndStatusTables, hstats, mkInfoTable, tableBody]
  · simp [statusTableOf, infoAndStatusTables, hstats, mkStatusTable, tableBody]
  · simp [infoTableOf, infoAndStatusTables, hstats, mkInfoTable, tableBody]
  · simp [statusTableOf, infoAndStatusTables, hstats, mkStatusTable, tableBody]
  · intro h; rw [h]; decide
  · intro h; rw [h]; decide
  · intro f h; rw [h]; decide
  · intro f h; rw [h]; decide
  · intro n; rfl

/-- Witness for C8: a record with a null and a missing field still yields
fully built tables with "0" and "NaN" cells. -/
theorem tables_fully_built_formatting_witness :
    (tableBody (statusTableOf envAbsent "all")).length = 6 ∧
    jsLocaleString (toNumber FieldVal.null) = "0" ∧
    jsLocaleString (toNumber FieldVal.undefined) = "NaN" :=
  ⟨(tables_fully_built_formatting envAbsent "all" recordAbsent rfl).2.1,
   (tables_fully_built_formatting envAbsent "all" recordAbsent
      rfl).2.2.2.2.2.2.1 FieldVal.null rfl,
   (tables_fully_built_formatting envAbsent "all" recordAbsent
      rfl).2.2.2.2.2.2.2.1 FieldVal.undefined rfl⟩

/-- C4: with one or more annotation entries the document ends with exactly
one page-break-marked annotation subheading followed by one annotation table
whose body has entries+1 rows, each entry rendered as its formatted
timestamp and verbatim text; with zero entries or a failed annotation fetch
no annotation subheading or table is appended. -/
theorem pdf_annotation_section (env : Env) (datetime country : String)
    (image_file : JSValue) :
    (∀ cs, env.comments = some cs → cs ≠ [] →
      docContent env datetime country image_file =
        baseBlocks env datetime country image_file ++
          [commentSubheading, mkCommentTable cs] ∧
      (docContent env datetime country image_file).countP pageBreakBefore = 1 ∧
      mkCommentTable cs = ContentBlock.table "tableBody" 20
        (commentHeaderRow ::
          cs.map (fun c => [Cell.plain c.datetime.toFormat, Cell.plain c.comment])) ∧
      (tableBody (mkCommentTable cs)).length = cs.length + 1) ∧
    ((env.comments = some [] ∨ env.comments = none) →
      docContent env datetime country image_file =
        baseBlocks env datetime country image_file ∧
      (docContent env datetime country image_file).countP pageBreakBefore = 0 ∧
      ∀ b ∈ docContent env datetime country image_file,
        blockId b ≠ some "comment") := by
  constructor
  · intro cs hcs hne
    have hlen : cs.length > 0 := List.length_pos.mpr hne
    refine ⟨?_, ?_, rfl, ?_⟩
    · simp [docContent, annotationBlocks, hcs, hlen]
    · rw [docContent, List.countP_append, countP_pageBreak_baseBlocks]
      simp [annotationBlocks, hcs, hlen, List.countP_cons, pageBreakBefore,
        commentSubheading, blockId, mkCommentTable]
    · simp [mkCommentTable, tableBody, commentHeaderRow]
  · intro hc
    have hann : annotationBlocks env.comments = [] := by
      rcases hc with hc | hc <;> simp [annotationBlocks, hc]
    refine ⟨?_, ?_, ?_⟩
    · simp [docContent, hann]
    · rw [docContent, hann, List.append_nil]
      exact countP_pageBreak_baseBlocks env datetime country image_file
    · intro b hb
      rw [docContent, hann, List.append_nil] at hb
      rw [blockId_baseBlocks env datetime country image_file b hb]
      simp

/-- Witness for C4 at concrete environments with one and with zero entries. -/
theorem pdf_annotation_section_witness :
    docContent envOkStats "2022-03-07 09:05" "all" (.str "img") =
      baseBlocks envOkStats "2022-03-07 09:05" "all" (.str "img") ++
        [commentSubheading, mkCommentTable [sampleEntry]] ∧
    (tableBody (mkCommentTable [sampleEntry])).length = 1 + 1 ∧
    docContent envNoStats "2022-03-07 09:05" "all" (.str "img") =
      baseBlocks envNoStats "2022-03-07 09:05" "all" (.str "img") :=
  ⟨((pdf_annotation_section envOkStats "2022-03-07 09:05" "all" (.str "img")).1
      [sampleEntry] rfl (by decide)).1,
   ((pdf_annotation_section envOkStats "2022-03-07 09:05" "all" (.str "img")).1
      [sampleEntry] rfl (by decide)).2.2.2,
   (((pdf_annotation_section envNoStats "2022-03-07 09:05" "all" (.str "img")).2
      (Or.inl rfl)).1)⟩

/-- C5: the page-break predicate holds for a block of the assembled document
exactly when that block is the annotation subheading (the block whose `id`
is the reserved marker `'comment'`); every other block never forces a break. -/
theorem pageBreak_only_comment_heading (env : Env) (datetime country : String)
    (image_file : JSValue) (b : ContentBlock)
    (hb : b ∈ docContent env datetime country image_file) :
    pageBreakBefore b = true ↔ b = commentSubheading := by
  constructor
  · intro hpb
    rcases docContent_id_cases env datetime country image_file b hb with h | h
    · exact h
    · rw [pageBreakBefore, h] at hpb
      simp at hpb
  · intro h
    rw [h]
    rfl

/-- Witness for C5: in a concrete document the annotation subheading forces
a break and the title block does not. -/
theorem pageBreak_only_comment_heading_witness :
    pageBreakBefore commentSubheading = true ∧
    ¬ (pageBreakBefore (ContentBlock.text "COVID-19 レポート" "title" none) = true) :=
  ⟨(pageBreak_only_comment_heading envOkStats "2022-03-07 09:05" "all"
      (.str "img") commentSubheading (by decide)).mpr rfl,
   fun h =>
     by simpa [commentSubheading] using
       (pageBreak_only_comment_heading envOkStats "2022-03-07 09:05" "all"
         (.str "img") (ContentBlock.text "COVID-19 レポート" "title" none)
         (by decide)).mp h⟩
